import Mathlib

/-
Verification of the JASONdata repository against its specification.

The repository ships the React presentation layer (pages, components, the
notebookApi client) while the FastAPI core (type inference, ingestion,
query gateway, statistical profiler) is described by the specification
only.  Frontend behaviour is embedded directly from the JavaScript
sources; core components absent from the sources are modelled from the
specification text and are marked as such in their doc comments.
-/

/- Section: Type Inference Engine (spec section 4.1) -/

inductive ColType
  | integer
  | float
  | boolean
  | timestamp
  | text
deriving DecidableEq, Repr

/-- Modelled from the spec: empty, whitespace-only and null-marker cells
(for example the empty string, NA, null) count as missing. -/
def isMissingCell (s : String) : Bool :=
  s.toList.all (fun c => c == ' ') || s == "NA" || s == "null"

/-- Digits of a numeric token after removing one optional leading minus
sign. -/
def numericBody (s : String) : List Char :=
  match s.toList with
  | '-' :: rest => rest
  | cs => cs

/-- Modelled from the spec: integer parse used by the strictness order. -/
def parsesInteger (s : String) : Bool :=
  !(numericBody s).isEmpty && (numericBody s).all Char.isDigit

/-- Modelled from the spec: float parse used by the strictness order. -/
def parsesFloat (s : String) : Bool :=
  (numericBody s).any Char.isDigit &&
    (numericBody s).all (fun c => c.isDigit || c == '.') &&
    decide ((numericBody s).count '.' ≤ 1)

/-- Modelled from the spec: boolean parse over the case-insensitive
true/false/yes/no/0/1 token set. -/
def parsesBoolean (s : String) : Bool :=
  ["true", "false", "yes", "no", "0", "1"].contains s.toLower

/-- Modelled from the spec: timestamp parse against a fixed small pattern
set, here the ten-character date pattern of four digits, a dash, two
digits, a dash and two digits. -/
def parsesTimestamp (s : String) : Bool :=
  let cs := s.toList
  decide (cs.length = 10) && (cs.take 4).all Char.isDigit &&
    cs.getD 4 ' ' == '-' && ((cs.drop 5).take 2).all Char.isDigit &&
    cs.getD 7 ' ' == '-' && (cs.drop 8).all Char.isDigit

/-- Non-missing cells of a column; missing markers are excluded from the
parse vote and from frequency tables. -/
def presentCells (xs : List String) : List String :=
  xs.filter fun s => !isMissingCell s

/-- Modelled from the spec: the Type Inference Engine assigns the
strictest type, in the order integer, float, boolean, timestamp, text,
for which all non-missing values parse; an all-missing column is typed
text. -/
def inferType (xs : List String) : ColType :=
  let vs := presentCells xs
  if vs.isEmpty then ColType.text
  else if vs.all parsesInteger then ColType.integer
  else if vs.all parsesFloat then ColType.float
  else if vs.all parsesBoolean then ColType.boolean
  else if vs.all parsesTimestamp then ColType.timestamp
  else ColType.text

/- Section: Statistical Profiler, categorical branch (spec section 4.5) -/

/-- Modelled from the spec: the categorical branch of the Statistical
Profiler computes a full value to count frequency table over non-missing
values, with no top-N truncation at the profiler level. -/
def valueCounts (cells : List String) : List (String × Nat) :=
  ((presentCells cells).dedup).map fun v => (v, (presentCells cells).count v)

/-- Embeds prepareCategoricalChartData from the Analysis page: the
entries are sorted by descending count and only the first ten are kept
for display. -/
def categoricalChartEntries (vc : List (String × Nat)) : List (String × Nat) :=
  (vc.mergeSort (fun a b => decide (b.2 ≤ a.2))).take 10

/-- The bar-chart labels rendered by the Analysis page for one
categorical column. -/
def categoricalChartLabels (vc : List (String × Nat)) : List String :=
  (categoricalChartEntries vc).map Prod.fst

/- Section: Statistical Profiler, numeric branch (spec section 4.5) -/

/-- Value of a sorted column snapshot at an index clamped into range. -/
def nthClamped (xs : List ℚ) (j : ℕ) : ℚ :=
  xs.getD (min j (xs.length - 1)) 0

/-- Linear interpolation between the two snapshot values bracketing a
fractional position h. -/
def interpAt (xs : List ℚ) (h : ℚ) : ℚ :=
  nthClamped xs (⌊h⌋).toNat
    + (h - ((⌊h⌋).toNat : ℚ))
      * (nthClamped xs ((⌊h⌋).toNat + 1) - nthClamped xs (⌊h⌋).toNat)

/-- Modelled from the spec: linear-interpolation quantile of a sorted
column snapshot at probability p, the quantile position being
p times (n - 1). -/
def quantileLinear (xs : List ℚ) (p : ℚ) : ℚ :=
  interpAt xs (p * ((xs.length : ℚ) - 1))

/-- Minimum of a sorted column snapshot. -/
def colMin (xs : List ℚ) : ℚ := nthClamped xs 0

/-- Maximum of a sorted column snapshot. -/
def colMax (xs : List ℚ) : ℚ := nthClamped xs (xs.length - 1)

structure BoxplotData where
  whisker_min : ℚ
  q1 : ℚ
  median : ℚ
  q3 : ℚ
  whisker_max : ℚ
deriving DecidableEq, Repr

/-- Modelled from the spec: the profiler computes boxplot quartiles as
linear-interpolation quantiles at the 25th, 50th and 75th percentiles,
and whiskers at q1 minus 1.5 IQR and q3 plus 1.5 IQR clipped to the
interval from min to max. -/
def boxplotOf (xs : List ℚ) : BoxplotData :=
  let q1 := quantileLinear xs (1/4)
  let med := quantileLinear xs (1/2)
  let q3 := quantileLinear xs (3/4)
  let iqr := q3 - q1
  ⟨max (q1 - 3/2 * iqr) (colMin xs), q1, med, q3,
    min (q3 + 3/2 * iqr) (colMax xs)⟩

/-- Mean of a column, as computed by the profiler over present values. -/
def sampleMean (xs : List ℚ) : ℚ := xs.sum / (xs.length : ℚ)

/-- Population variance of a column. -/
def popVariance (xs : List ℚ) : ℚ :=
  ((xs.map fun x => (x - sampleMean xs) ^ 2).sum) / (xs.length : ℚ)

/- Section: The two boxplot rendering paths of the Analysis page -/

/-- The per-column numeric summary delivered in numeric_stats. -/
structure NumericStats where
  statMin : ℚ
  statMax : ℚ
  mean : ℚ
  std : ℚ
deriving DecidableEq, Repr

/-- Embeds the superseded prepareNumericPlotData: the y list of the box
trace is built from mean and std under a normal-distribution
approximation, with q1 at mean minus 0.675 std, median at mean and q3 at
mean plus 0.675 std. -/
def approxBoxplotY (stats : NumericStats) : List ℚ :=
  let q1 := stats.mean - 675/1000 * stats.std
  let q3 := stats.mean + 675/1000 * stats.std
  let median := stats.mean
  [stats.statMin, q1, median, q3, stats.statMax]

/-- Embeds the adopted prepareNumericPlotData: the x list of the box
trace is taken verbatim from the boxplot record of
numeric_distributions for the column. -/
def adoptedBoxplotX (b : BoxplotData) : List ℚ :=
  [b.whisker_min, b.q1, b.median, b.q3, b.whisker_max]

/- Section: Report validator of the Analysis page (part_004 handleGenerateReport) -/

/-- A boxplot object as received in JSON: a field holds none when the
key is absent. -/
structure BoxplotJson where
  whisker_min : Option ℚ
  q1 : Option ℚ
  median : Option ℚ
  q3 : Option ℚ
  whisker_max : Option ℚ
deriving DecidableEq, Repr

/-- JavaScript truthiness test on a numeric field: an absent field and
the number zero are both falsy. -/
def jsFalsyNum : Option ℚ → Bool
  | none => true
  | some v => decide (v = 0)

/-- Embeds the validator check of handleGenerateReport: the column is
flagged as missing boxplot data when the negation of any of the five
fields is truthy. -/
def boxplotMissingDataWarn (b : BoxplotJson) : Bool :=
  jsFalsyNum b.whisker_min || jsFalsyNum b.q1 || jsFalsyNum b.median ||
    jsFalsyNum b.q3 || jsFalsyNum b.whisker_max

/-- An actual presence check on the same object: true only when some
field is really absent. -/
def boxplotFieldAbsent (b : BoxplotJson) : Bool :=
  b.whisker_min == none || b.q1 == none || b.median == none ||
    b.q3 == none || b.whisker_max == none

/-- The JSON form of a fully populated boxplot record. -/
def BoxplotData.asJson (b : BoxplotData) : BoxplotJson :=
  ⟨some b.whisker_min, some b.q1, some b.median, some b.q3, some b.whisker_max⟩

/- Section: Query Gateway (spec section 4.4) -/

/-- Shape of one parsed SQL statement, following the allow-list design
of the spec design notes. -/
inductive SqlStmt
  | selectStmt (cols : List String) (table : String)
      (whereCol : Option String) (whereVal : Option String)
      (orderBy : Option String)
  | insertStmt (table : String)
  | updateStmt (table : String)
  | deleteStmt (table : String)
  | dropTableStmt (table : String)
  | createTableStmt (table : String)
  | alterTableStmt (table : String)
deriving DecidableEq, Repr

/-- A statement is acceptable only when it is a pure data-retrieval
select against the own dataset table. -/
def isReadOnlyOnTable (ownTable : String) : SqlStmt → Bool
  | SqlStmt.selectStmt _ t _ _ _ => t == ownTable
  | _ => false

/-- A submission is safe when it consists of exactly one statement and
that statement is a read-only select on the own table. -/
def isSafeSubmission (ownTable : String) (stmts : List SqlStmt) : Bool :=
  match stmts with
  | [s] => isReadOnlyOnTable ownTable s
  | _ => false

structure QueryResult where
  columns : List String
  rows : List (List String)
  total : Nat
deriving DecidableEq, Repr

inductive GatewayOutcome
  | ok (r : QueryResult)
  | unsafeQueryError
deriving DecidableEq, Repr

/-- Hard maximum on returned rows regardless of the requested limit. -/
def hardRowCap : Nat := 1000

/-- Modelled from the spec: the Query Gateway validates the submission
before execution, rejecting with UnsafeQueryError anything that is not a
single read-only select on the own dataset table; an accepted query is
paged by offset and by limit bounded to the hard cap, with total taken
from the full table.  The stored table is returned alongside the outcome
so that non-mutation is observable. -/
def executeGateway (ownTable : String) (tableCols : List String)
    (tableRows : List (List String)) (stmts : List SqlStmt)
    (limit offset : Nat) : GatewayOutcome × List (List String) :=
  match stmts with
  | [SqlStmt.selectStmt cols t _ _ _] =>
      if t == ownTable then
        (GatewayOutcome.ok
          ⟨(if cols = ["*"] then tableCols else cols),
            (tableRows.drop offset).take (min limit hardRowCap),
            tableRows.length⟩, tableRows)
      else (GatewayOutcome.unsafeQueryError, tableRows)
  | _ => (GatewayOutcome.unsafeQueryError, tableRows)

/- Section: Data page (Data.jsx) -/

/-- The dataset-data response as the Data page reads it: every field the
page touches, each optional because a JSON key may be absent.  The rows
and tableName fields carry the names used by the spec interface table so
that both namings can be compared. -/
structure DataResponse where
  columns : Option (List String)
  data : Option (List (List String))
  rows : Option (List (List String))
  total : Option Nat
  table_name : Option String
  tableName : Option String
deriving DecidableEq, Repr

/-- JavaScript truthiness test on a string field: an absent field and
the empty string are both falsy. -/
def jsFalsyStr : Option String → Bool
  | none => true
  | some s => s == ""

inductive FetchOutcome
  | errorState (msg : String)
  | loaded (data : Option (List (List String))) (columns : Option (List String))
      (total : Option Nat) (tableName : String)
deriving DecidableEq, Repr

/-- Embeds fetchData of the Data page: a response whose table_name field
is falsy is rejected with the error state, otherwise the data, columns,
total and table_name fields of the response are stored untouched. -/
def fetchDataOutcome (resp : DataResponse) : FetchOutcome :=
  if jsFalsyStr resp.table_name then
    FetchOutcome.errorState "Table name is missing from server response"
  else
    FetchOutcome.loaded resp.data resp.columns resp.total
      (resp.table_name.getD "")

/-- Embeds the SQL textarea placeholder of the Data page, which
interpolates the physical table name received from the server. -/
def sqlQueryPlaceholder (tableName : String) : String :=
  "SELECT * FROM " ++ tableName ++ " WHERE column = \x27value\x27 ORDER BY column ASC"

/-- Embeds the example-query list of the Data page, each example
interpolating the physical table name. -/
def exampleQueries (tableName : String) : List String :=
  ["SELECT * FROM " ++ tableName,
   "SELECT column1, column2 FROM " ++ tableName,
   "SELECT * FROM " ++ tableName ++ " WHERE column = \x27value\x27",
   "SELECT * FROM " ++ tableName ++ " ORDER BY column ASC"]

/-- Model of the JavaScript string trim used by the page code. -/
def jsTrim (s : String) : String :=
  ⟨((s.toList.dropWhile Char.isWhitespace).reverse.dropWhile
      Char.isWhitespace).reverse⟩

/-- Embeds executeSqlQuery up to the backend call: the query text sent
to the client is the trimmed textarea content, verbatim. -/
def submittedQuery (raw : String) : String := jsTrim raw

/- Section: The notebookApi client of services/api.js -/

/-- The exact method set defined on the notebookApi object of
src/frontend/src/services/api.js. -/
def notebookApiMethods : List String :=
  ["getAll", "getOne", "create", "update", "delete"]

/-- Result of a JavaScript call: a value or a thrown error message. -/
inductive JsOutcome (α : Type)
  | ok (value : α)
  | thrown (message : String)
deriving DecidableEq, Repr

/-- Invoking a method on the notebookApi object: a defined method runs
its implementation, an undefined property invoked as a function throws a
TypeError. -/
def invokeNotebookApi {α : Type} (method : String)
    (impl : Unit → JsOutcome α) : JsOutcome α :=
  if notebookApiMethods.contains method then impl ()
  else JsOutcome.thrown ("notebookApi." ++ method ++ " is not a function")

/-- JavaScript or-else on an optional string: an absent or empty message
falls back to the default. -/
def jsOrStr (v : Option String) (dflt : String) : String :=
  match v with
  | none => dflt
  | some s => if s = "" then dflt else s

inductive ReportUiState (α : Type)
  | errorShown (msg : String)
  | reportShown (report : α)
deriving DecidableEq, Repr

/-- Embeds handleGenerateReport of the Analysis page: the report request
goes through notebookApi.getAnalysisReport and any thrown error lands in
the error branch. -/
def handleGenerateReportResult {α : Type} (impl : Unit → JsOutcome α) :
    ReportUiState α :=
  match invokeNotebookApi "getAnalysisReport" impl with
  | JsOutcome.thrown _ => ReportUiState.errorShown "Failed to generate analysis report"
  | JsOutcome.ok r => ReportUiState.reportShown r

inductive QueryUiState (α : Type)
  | queryErrorShown (msg : String)
  | resultShown (result : α)
deriving DecidableEq, Repr

/-- Embeds executeSqlQuery of the Data page: an empty trimmed query is
refused locally, otherwise the query goes through
notebookApi.executeQuery and a thrown error message is surfaced in the
query-error branch. -/
def executeSqlQueryResult {α : Type} (raw : String)
    (impl : Unit → JsOutcome α) : QueryUiState α :=
  if submittedQuery raw = "" then
    QueryUiState.queryErrorShown "Please enter a SQL query"
  else
    match invokeNotebookApi "executeQuery" impl with
    | JsOutcome.thrown msg =>
        QueryUiState.queryErrorShown (jsOrStr (some msg) "Failed to execute query")
    | JsOutcome.ok r => QueryUiState.resultShown r

/-- Embeds the catch branch of fetchData on the Data page. -/
def fetchDataCaughtMessage (msg : String) : String :=
  "Failed to load data: " ++ jsOrStr (some msg) "Unknown error"

/- Section: Dataset creation (part_002 create, part_000 upload modal) -/

structure Dataset where
  id : Nat
  title : String
  description : String
  table_name : String
deriving DecidableEq, Repr

structure NewNotebook where
  title : String
  description : Option String
  table_name : String
  file : String
deriving DecidableEq, Repr

/-- Embeds create of the notebookApi client variant with the upload
path: the request body is multipart form data carrying the title, the
description with the empty string as fallback, the table name and the
file. -/
def createFormData (nb : NewNotebook) : List (String × String) :=
  [("title", nb.title),
   ("description", jsOrStr nb.description ""),
   ("table_name", nb.table_name),
   ("file", nb.file)]

inductive CreateResponse
  | ok (d : Dataset)
  | err (detail : Option String)
deriving DecidableEq, Repr

/-- Embeds the response handling of create: a successful response yields
the created dataset, a failure surfaces the detail field of the error
body, with a fixed fallback message. -/
def createOutcome (r : CreateResponse) : Except String Dataset :=
  match r with
  | CreateResponse.ok d => Except.ok d
  | CreateResponse.err detail =>
      Except.error (jsOrStr detail "Failed to create notebook")

/- Section: Supporting lemmas for the numeric profiler -/

theorem sorted_getD_mono {xs : List ℚ} (hs : List.Sorted (· ≤ ·) xs) {j k : ℕ}
    (hjk : j ≤ k) (hk : k < xs.length) : xs.getD j 0 ≤ xs.getD k 0 := by
  have hj : j < xs.length := lt_of_le_of_lt hjk hk
  rw [List.getD_eq_getElem _ _ hj, List.getD_eq_getElem _ _ hk]
  rcases lt_or_eq_of_le hjk with h | h
  · exact (List.pairwise_iff_getElem.mp hs) j k hj hk h
  · subst h
    exact le_refl _

theorem nthClamped_mono {xs : List ℚ} (hs : List.Sorted (· ≤ ·) xs)
    (hne : xs ≠ []) {j k : ℕ} (hjk : j ≤ k) :
    nthClamped xs j ≤ nthClamped xs k := by
  have hn : 0 < xs.length := List.length_pos.mpr hne
  exact sorted_getD_mono hs (min_le_min hjk le_rfl)
    (lt_of_le_of_lt (min_le_right _ _) (Nat.sub_lt hn one_pos))

theorem colMin_le_nthClamped {xs : List ℚ} (hs : List.Sorted (· ≤ ·) xs)
    (hne : xs ≠ []) (j : ℕ) : colMin xs ≤ nthClamped xs j :=
  nthClamped_mono hs hne (Nat.zero_le j)

theorem nthClamped_le_colMax {xs : List ℚ} (hs : List.Sorted (· ≤ ·) xs)
    (hne : xs ≠ []) (j : ℕ) : nthClamped xs j ≤ colMax xs := by
  have hn : 0 < xs.length := List.length_pos.mpr hne
  have h1 : min j (xs.length - 1) ≤ xs.length - 1 := min_le_right _ _
  have h2 : xs.length - 1 < xs.length := Nat.sub_lt hn one_pos
  unfold colMax nthClamped
  rw [min_self]
  exact sorted_getD_mono hs h1 h2

theorem interpAt_between {xs : List ℚ} (hs : List.Sorted (· ≤ ·) xs)
    (hne : xs ≠ []) {h : ℚ} (hh : 0 ≤ h) :
    nthClamped xs (⌊h⌋).toNat ≤ interpAt xs h ∧
      interpAt xs h ≤ nthClamped xs ((⌊h⌋).toNat + 1) := by
  have hfl : (0:ℤ) ≤ ⌊h⌋ := Int.floor_nonneg.mpr hh
  have hcast : (((⌊h⌋).toNat : ℚ)) = ((⌊h⌋ : ℤ) : ℚ) := by
    exact_mod_cast congrArg (fun z : ℤ => (z : ℚ)) (Int.toNat_of_nonneg hfl)
  have hlo : (((⌊h⌋).toNat : ℚ)) ≤ h := by
    rw [hcast]
    exact Int.floor_le h
  have hhi : h ≤ (((⌊h⌋).toNat : ℚ)) + 1 := by
    rw [hcast]
    exact le_of_lt (Int.lt_floor_add_one h)
  have hd : nthClamped xs (⌊h⌋).toNat ≤ nthClamped xs ((⌊h⌋).toNat + 1) :=
    nthClamped_mono hs hne (Nat.le_succ _)
  constructor
  · have p1 : 0 ≤ (h - (((⌊h⌋).toNat : ℚ))) *
        (nthClamped xs ((⌊h⌋).toNat + 1) - nthClamped xs (⌊h⌋).toNat) :=
      mul_nonneg (by linarith) (by linarith)
    unfold interpAt
    linarith
  · have p2 : (h - (((⌊h⌋).toNat : ℚ))) *
        (nthClamped xs ((⌊h⌋).toNat + 1) - nthClamped xs (⌊h⌋).toNat) ≤
        1 * (nthClamped xs ((⌊h⌋).toNat + 1) - nthClamped xs (⌊h⌋).toNat) :=
      mul_le_mul_of_nonneg_right (by linarith) (by linarith)
    unfold interpAt
    linarith

theorem interpAt_mono {xs : List ℚ} (hs : List.Sorted (· ≤ ·) xs)
    (hne : xs ≠ []) {g h : ℚ} (hg : 0 ≤ g) (hgh : g ≤ h) :
    interpAt xs g ≤ interpAt xs h := by
  have hh : 0 ≤ h := le_trans hg hgh
  have hnat : (⌊g⌋).toNat ≤ (⌊h⌋).toNat :=
    Int.toNat_le_toNat (Int.floor_le_floor hgh)
  rcases eq_or_lt_of_le hnat with heq | hlt
  · have hfl : (0:ℤ) ≤ ⌊g⌋ := Int.floor_nonneg.mpr hg
    have hcast : (((⌊g⌋).toNat : ℚ)) = ((⌊g⌋ : ℤ) : ℚ) := by
      exact_mod_cast congrArg (fun z : ℤ => (z : ℚ)) (Int.toNat_of_nonneg hfl)
    have hglo : (((⌊g⌋).toNat : ℚ)) ≤ g := by
      rw [hcast]
      exact Int.floor_le g
    have hd : nthClamped xs (⌊h⌋).toNat ≤ nthClamped xs ((⌊h⌋).toNat + 1) :=
      nthClamped_mono hs hne (Nat.le_succ _)
    unfold interpAt
    rw [heq]
    have p3 : (g - (((⌊h⌋).toNat : ℚ))) *
        (nthClamped xs ((⌊h⌋).toNat + 1) - nthClamped xs (⌊h⌋).toNat) ≤
        (h - (((⌊h⌋).toNat : ℚ))) *
        (nthClamped xs ((⌊h⌋).toNat + 1) - nthClamped xs (⌊h⌋).toNat) :=
      mul_le_mul_of_nonneg_right (by linarith) (by linarith)
    linarith
  · calc interpAt xs g ≤ nthClamped xs ((⌊g⌋).toNat + 1) :=
        (interpAt_between hs hne hg).2
      _ ≤ nthClamped xs ((⌊h⌋).toNat) := nthClamped_mono hs hne hlt
      _ ≤ interpAt xs h := (interpAt_between hs hne hh).1

theorem length_cast_ge_one {xs : List ℚ} (hne : xs ≠ []) :
    (1:ℚ) ≤ (xs.length : ℚ) := by
  have : 1 ≤ xs.length := List.length_pos.mpr hne
  exact_mod_cast this

theorem quantileLinear_mono {xs : List ℚ} (hs : List.Sorted (· ≤ ·) xs)
    (hne : xs ≠ []) {p q : ℚ} (hp : 0 ≤ p) (hpq : p ≤ q) :
    quantileLinear xs p ≤ quantileLinear xs q := by
  have hlen : (0:ℚ) ≤ (xs.length : ℚ) - 1 := by
    have := length_cast_ge_one hne
    linarith
  exact interpAt_mono hs hne (mul_nonneg hp hlen)
    (mul_le_mul_of_nonneg_right hpq hlen)

theorem colMin_le_quantileLinear {xs : List ℚ} (hs : List.Sorted (· ≤ ·) xs)
    (hne : xs ≠ []) {p : ℚ} (hp : 0 ≤ p) :
    colMin xs ≤ quantileLinear xs p := by
  have hlen : (0:ℚ) ≤ (xs.length : ℚ) - 1 := by
    have := length_cast_ge_one hne
    linarith
  exact le_trans (colMin_le_nthClamped hs hne _)
    (interpAt_between hs hne (mul_nonneg hp hlen)).1

theorem quantileLinear_le_colMax {xs : List ℚ} (hs : List.Sorted (· ≤ ·) xs)
    (hne : xs ≠ []) {p : ℚ} (hp : 0 ≤ p) :
    quantileLinear xs p ≤ colMax xs := by
  have hlen : (0:ℚ) ≤ (xs.length : ℚ) - 1 := by
    have := length_cast_ge_one hne
    linarith
  exact le_trans (interpAt_between hs hne (mul_nonneg hp hlen)).2
    (nthClamped_le_colMax hs hne _)

/-- Claim C1: for every numeric column of a generated analysis report,
the rendered boxplot satisfies whisker_min at most q1, q1 at most the
median, the median at most q3 and q3 at most whisker_max, together with
min at most whisker_min and whisker_max at most max, where the quartiles
are linear-interpolation quantiles and the whiskers are q1 minus 1.5 IQR
and q3 plus 1.5 IQR clipped to the min-max interval. -/
theorem C1_boxplot_order {xs : List ℚ} (hs : List.Sorted (· ≤ ·) xs)
    (hne : xs ≠ []) :
    (boxplotOf xs).whisker_min ≤ (boxplotOf xs).q1 ∧
    (boxplotOf xs).q1 ≤ (boxplotOf xs).median ∧
    (boxplotOf xs).median ≤ (boxplotOf xs).q3 ∧
    (boxplotOf xs).q3 ≤ (boxplotOf xs).whisker_max ∧
    colMin xs ≤ (boxplotOf xs).whisker_min ∧
    (boxplotOf xs).whisker_max ≤ colMax xs := by
  have h12 : quantileLinear xs (1/4) ≤ quantileLinear xs (1/2) :=
    quantileLinear_mono hs hne (by norm_num) (by norm_num)
  have h23 : quantileLinear xs (1/2) ≤ quantileLinear xs (3/4) :=
    quantileLinear_mono hs hne (by norm_num) (by norm_num)
  have hminq : colMin xs ≤ quantileLinear xs (1/4) :=
    colMin_le_quantileLinear hs hne (by norm_num)
  have hqmax : quantileLinear xs (3/4) ≤ colMax xs :=
    quantileLinear_le_colMax hs hne (by norm_num)
  simp only [boxplotOf]
  refine ⟨max_le (by linarith) hminq, h12, h23,
    le_min (by linarith) hqmax, le_max_right _ _, min_le_right _ _⟩

theorem C1_boxplot_order_witness :
    (List.Sorted (· ≤ ·) [(1:ℚ), 2, 10] ∧ [(1:ℚ), 2, 10] ≠ []) ∧
    ((boxplotOf [(1:ℚ), 2, 10]).whisker_min ≤ (boxplotOf [(1:ℚ), 2, 10]).q1 ∧
     (boxplotOf [(1:ℚ), 2, 10]).q1 ≤ (boxplotOf [(1:ℚ), 2, 10]).median ∧
     (boxplotOf [(1:ℚ), 2, 10]).median ≤ (boxplotOf [(1:ℚ), 2, 10]).q3 ∧
     (boxplotOf [(1:ℚ), 2, 10]).q3 ≤ (boxplotOf [(1:ℚ), 2, 10]).whisker_max ∧
     colMin [(1:ℚ), 2, 10] ≤ (boxplotOf [(1:ℚ), 2, 10]).whisker_min ∧
     (boxplotOf [(1:ℚ), 2, 10]).whisker_max ≤ colMax [(1:ℚ), 2, 10]) :=
  ⟨⟨by norm_num [List.sorted_cons], by simp⟩,
    C1_boxplot_order (by norm_num [List.sorted_cons]) (by simp)⟩

/- Section: Claim C2, the two boxplot code paths -/

/-- Claim C2: the two boxplot rendering paths are not equivalent and the
adopted one is the direct-quantile path: the superseded path derives
quartiles from mean and std under a normality assumption, the adopted
path renders the directly computed sample quantiles of the profiler, and
on the column with values 1 and 3 (mean 2, population variance 1, so
population std 1) the two paths render different quartile values. -/
theorem C2_boxplot_paths_differ :
    sampleMean [(1:ℚ), 3] = 2 ∧
    popVariance [(1:ℚ), 3] = 1 ∧
    (boxplotOf [(1:ℚ), 3]).q1 = quantileLinear [(1:ℚ), 3] (1/4) ∧
    (boxplotOf [(1:ℚ), 3]).median = quantileLinear [(1:ℚ), 3] (1/2) ∧
    (boxplotOf [(1:ℚ), 3]).q3 = quantileLinear [(1:ℚ), 3] (3/4) ∧
    approxBoxplotY ⟨1, 3, 2, 1⟩ ≠ adoptedBoxplotX (boxplotOf [(1:ℚ), 3]) := by
  have hbox : boxplotOf [(1:ℚ), 3] = ⟨1, 3/2, 2, 5/2, 3⟩ := by
    norm_num [boxplotOf, quantileLinear, interpAt, nthClamped, colMin, colMax,
      BoxplotData.mk.injEq]
  refine ⟨by norm_num [sampleMean, List.sum_cons, List.sum_nil],
    by norm_num [popVariance, sampleMean, List.sum_cons, List.sum_nil], rfl, rfl, rfl, ?_⟩
  intro hEq
  rw [hbox] at hEq
  norm_num [approxBoxplotY, adoptedBoxplotX] at hEq

/- Section: Claim C3, rejection of unsafe queries -/

/-- Claim C3: a submission that is not a single read-only select on the
own dataset table is rejected with UnsafeQueryError and the stored table
is untouched; in particular a drop-table statement, a select on another
dataset table, and a select followed by a delete are each rejected. -/
theorem C3_unsafe_query_rejected :
    (∀ (own : String) (tc : List String) (tr : List (List String))
        (stmts : List SqlStmt) (l o : Nat),
      isSafeSubmission own stmts = false →
      executeGateway own tc tr stmts l o =
        (GatewayOutcome.unsafeQueryError, tr)) ∧
    (∀ (tc : List String) (tr : List (List String)) (l o : Nat),
      executeGateway "dataset_table_1" tc tr [SqlStmt.dropTableStmt "x"] l o =
        (GatewayOutcome.unsafeQueryError, tr) ∧
      executeGateway "dataset_table_1" tc tr
        [SqlStmt.selectStmt ["*"] "other_dataset_table" none none none] l o =
        (GatewayOutcome.unsafeQueryError, tr) ∧
      executeGateway "dataset_table_1" tc tr
        [SqlStmt.selectStmt ["*"] "dataset_table_1" none none none,
         SqlStmt.deleteStmt "dataset_table_1"] l o =
        (GatewayOutcome.unsafeQueryError, tr)) := by
  constructor
  · intro own tc tr stmts l o hunsafe
    rcases stmts with _ | ⟨s, _ | ⟨s2, rest⟩⟩
    · rfl
    · cases s with
      | selectStmt cols t w v ob =>
          simp only [isSafeSubmission, isReadOnlyOnTable] at hunsafe
          simp [executeGateway, hunsafe]
      | insertStmt t => rfl
      | updateStmt t => rfl
      | deleteStmt t => rfl
      | dropTableStmt t => rfl
      | createTableStmt t => rfl
      | alterTableStmt t => rfl
    · cases s <;> rfl
  · intro tc tr l o
    refine ⟨rfl, ?_, ?_⟩
    · simp [executeGateway]
    · rfl

theorem C3_unsafe_query_rejected_witness :
    isSafeSubmission "dataset_table_1" [SqlStmt.dropTableStmt "x"] = false ∧
    executeGateway "dataset_table_1" ["a"] [["1"], ["2"]]
      [SqlStmt.dropTableStmt "x"] 10 0 =
      (GatewayOutcome.unsafeQueryError, [["1"], ["2"]]) :=
  ⟨by decide, C3_unsafe_query_rejected.1 "dataset_table_1" ["a"] [["1"], ["2"]]
      [SqlStmt.dropTableStmt "x"] 10 0 (by decide)⟩

/- Section: Claim C4, the logical placeholder question -/

/-- Claim C4 counterexample: the query text offered to the caller by the
data page is not a stable logical placeholder, it changes with the
physical table name of the dataset, so the caller must know the physical
name to write a query. -/
theorem C4_counterexample_placeholder_not_stable :
    sqlQueryPlaceholder "users_table_1" ≠ sqlQueryPlaceholder "sales_table_2" := by
  decide

/-- Claim C4 amended: the caller works directly with the physical table
name: the data page offers query templates that interpolate the physical
name verbatim, submits the typed query text with no client-side
placeholder substitution, and treats a dataset-data response without a
table name as an error. -/
theorem C4_amended_physical_name_used :
    (∀ t : String, sqlQueryPlaceholder t =
      "SELECT * FROM " ++ t ++ " WHERE column = \x27value\x27 ORDER BY column ASC") ∧
    (∀ t : String, exampleQueries t =
      ["SELECT * FROM " ++ t,
       "SELECT column1, column2 FROM " ++ t,
       "SELECT * FROM " ++ t ++ " WHERE column = \x27value\x27",
       "SELECT * FROM " ++ t ++ " ORDER BY column ASC"]) ∧
    (∀ raw : String, submittedQuery raw = jsTrim raw) ∧
    fetchDataOutcome ⟨some ["id"], some [["1"]], none, some 1, none, none⟩ =
      FetchOutcome.errorState "Table name is missing from server response" :=
  ⟨fun _ => rfl, fun _ => rfl, fun _ => rfl, rfl⟩

/- Section: Claim C5, the incomplete notebookApi client -/

/-- Claim C5: the notebookApi client of services/api.js defines only the
five CRUD methods, so report generation, SQL execution and the data
fetch all invoke undefined methods, throw a TypeError, and land in the
error branch without ever returning a result. -/
theorem C5_missing_api_methods_throw :
    (∀ (α : Type) (impl : Unit → JsOutcome α),
      handleGenerateReportResult impl =
        ReportUiState.errorShown "Failed to generate analysis report") ∧
    (∀ (α : Type) (impl : Unit → JsOutcome α) (raw : String),
      submittedQuery raw ≠ "" →
      executeSqlQueryResult raw impl =
        QueryUiState.queryErrorShown "notebookApi.executeQuery is not a function") ∧
    (∀ (α : Type) (impl : Unit → JsOutcome α),
      invokeNotebookApi "getData" impl =
        JsOutcome.thrown "notebookApi.getData is not a function") ∧
    notebookApiMethods = ["getAll", "getOne", "create", "update", "delete"] := by
  refine ⟨fun α impl => rfl, fun α impl raw hraw => ?_, fun α impl => rfl, rfl⟩
  unfold executeSqlQueryResult
  rw [if_neg hraw]
  rfl

theorem C5_missing_api_methods_throw_witness :
    submittedQuery "SELECT 1" ≠ "" ∧
    executeSqlQueryResult "SELECT 1" (fun _ => JsOutcome.ok (0 : Nat)) =
      QueryUiState.queryErrorShown "notebookApi.executeQuery is not a function" :=
  ⟨by decide, C5_missing_api_methods_throw.2.1 Nat
      (fun _ => JsOutcome.ok 0) "SELECT 1" (by decide)⟩

/- Section: Claim C6, the dataset-data result shape -/

/-- Claim C6 counterexample: a dataset-data response shaped exactly as
the claim says, with fields columns, rows, total and tableName, is
rejected by the consuming data page, which requires the table_name field
and reads the page from the data field. -/
theorem C6_counterexample_field_names :
    fetchDataOutcome
      ⟨some ["id", "price"], none, some [["1", "10.5"]], some 1, none,
        some "tbl_products"⟩ =
      FetchOutcome.errorState "Table name is missing from server response" := rfl

/-- Claim C6 amended: the dataset-data result carries the unfiltered raw
page in fields named columns, data, total and table_name; the page and
metadata are stored by the data page exactly as received, and a response
is rejected only when table_name is missing or empty. -/
theorem C6_amended_field_names :
    ∀ (cols : List String) (page : List (List String)) (tot : Nat)
      (tn : String), tn ≠ "" →
      fetchDataOutcome ⟨some cols, some page, none, some tot, some tn, none⟩ =
        FetchOutcome.loaded (some page) (some cols) (some tot) tn := by
  intro cols page tot tn htn
  simp [fetchDataOutcome, jsFalsyStr, htn]

theorem C6_amended_field_names_witness :
    ("products_table" : String) ≠ "" ∧
    fetchDataOutcome ⟨some ["id"], some [["1"]], none, some 1,
        some "products_table", none⟩ =
      FetchOutcome.loaded (some [["1"]]) (some ["id"]) (some 1) "products_table" :=
  ⟨by decide, C6_amended_field_names ["id"] [["1"]] 1 "products_table" (by decide)⟩

/- Section: Claim C7, multipart dataset creation -/

/-- Claim C7: creating a dataset submits a multipart form carrying the
title, the optional description with the empty string as fallback, the
table name and the file, and the outcome is the created dataset or the
surfaced ingest error detail. -/
theorem C7_create_multipart :
    (∀ nb : NewNotebook, createFormData nb =
      [("title", nb.title), ("description", jsOrStr nb.description ""),
       ("table_name", nb.table_name), ("file", nb.file)]) ∧
    (∀ nb : NewNotebook, ("title", nb.title) ∈ createFormData nb ∧
      ("file", nb.file) ∈ createFormData nb) ∧
    (∀ d : Dataset, createOutcome (CreateResponse.ok d) = Except.ok d) ∧
    (∀ detail : Option String,
      createOutcome (CreateResponse.err detail) =
        Except.error (jsOrStr detail "Failed to create notebook")) := by
  refine ⟨fun nb => rfl, fun nb => ⟨?_, ?_⟩, fun d => rfl, fun detail => rfl⟩
  · simp [createFormData]
  · simp [createFormData]

/- Section: Claim C8, full frequency tables at the profiler level -/

theorem lookup_map_self (f : String → Nat) :
    ∀ (l : List String) (v : String), v ∈ l →
      (l.map fun x => (x, f x)).lookup v = some (f v) := by
  intro l
  induction l with
  | nil => intro v hv; cases hv
  | cons x rest ih =>
      intro v hv
      by_cases hvx : v = x
      · subst hvx
        simp [List.lookup]
      · have hbeq : (v == x) = false := beq_eq_false_iff_ne.mpr hvx
        rcases List.mem_cons.mp hv with h | h
        · exact absurd h hvx
        · simpa [List.lookup, hbeq] using ih v h

/-- Claim C8: the profiler-level frequency table for a categorical
column is the full value-to-count table over non-missing values, with
one entry per distinct present value and no top-N truncation at the
profiler level; the truncation to ten entries happens only in the
chart-preparation presentation code of the Analysis page. -/
theorem C8_full_frequency_table :
    (∀ cells : List String,
      (valueCounts cells).length = ((presentCells cells).dedup).length) ∧
    (∀ (cells : List String) (v : String), v ∈ presentCells cells →
      (valueCounts cells).lookup v = some ((presentCells cells).count v)) ∧
    (∀ (cells : List String) (v : String), isMissingCell v = true →
      v ∉ presentCells cells) ∧
    (∀ vc : List (String × Nat),
      (categoricalChartLabels vc).length = min 10 vc.length) := by
  refine ⟨fun cells => by simp [valueCounts],
    fun cells v hv => ?_, fun cells v hv => ?_, fun vc => ?_⟩
  · exact lookup_map_self _ _ _ (List.mem_dedup.mpr hv)
  · simp [presentCells, List.mem_filter, hv]
  · simp [categoricalChartLabels, categoricalChartEntries, List.length_take,
      List.length_mergeSort]

theorem C8_full_frequency_table_witness :
    "A" ∈ presentCells ["A", "B", "A", "NA"] ∧
    (valueCounts ["A", "B", "A", "NA"]).lookup "A" =
      some ((presentCells ["A", "B", "A", "NA"]).count "A") :=
  ⟨by decide, C8_full_frequency_table.2.1 ["A", "B", "A", "NA"] "A" (by decide)⟩

/- Section: Claim C9, strictest-type inference -/

theorem digits_imply_float_shape (cs : List Char) (hne : cs.isEmpty = false)
    (hall : ∀ c ∈ cs, c.isDigit = true) :
    (cs.any Char.isDigit && cs.all (fun c => c.isDigit || c == '.') &&
      decide (cs.count '.' ≤ 1)) = true := by
  rcases cs with _ | ⟨c, rest⟩
  · simp at hne
  · rw [Bool.and_eq_true, Bool.and_eq_true]
    refine ⟨⟨?_, ?_⟩, ?_⟩
    · rw [List.any_eq_true]
      exact ⟨c, List.mem_cons_self c rest, hall c (List.mem_cons_self c rest)⟩
    · rw [List.all_eq_true]
      intro x hx
      rw [Bool.or_eq_true]
      exact Or.inl (hall x hx)
    · rw [decide_eq_true_iff]
      have hzero : (c :: rest).count '.' = 0 := by
        rw [List.count_eq_zero]
        intro hmem
        exact absurd (hall '.' hmem) (by decide)
      omega

theorem parsesInteger_parsesFloat {s : String} (h : parsesInteger s = true) :
    parsesFloat s = true := by
  unfold parsesInteger at h
  unfold parsesFloat
  rw [Bool.and_eq_true] at h
  obtain ⟨hne, hall⟩ := h
  exact digits_imply_float_shape (numericBody s)
    (by simpa using hne) (List.all_eq_true.mp hall)

/-- Claim C9: the inferred column type is the strictest of integer,
float, boolean, timestamp, text for which every non-missing value
parses: a column whose present values all parse as integers is typed
integer, a column whose present values all parse as floats with at least
one value that is not integer-parseable is typed float (a single such
value demotes the column), and a column typed integer has only
integer-parseable present values. -/
theorem C9_type_inference_strictness :
    (∀ xs : List String, presentCells xs ≠ [] →
      (∀ v ∈ presentCells xs, parsesInteger v = true) →
      inferType xs = ColType.integer) ∧
    (∀ xs : List String,
      (∀ v ∈ presentCells xs, parsesFloat v = true) →
      (∃ v ∈ presentCells xs, parsesInteger v = false) →
      inferType xs = ColType.float) ∧
    (∀ xs : List String, inferType xs = ColType.integer →
      ∀ v ∈ presentCells xs, parsesInteger v = true) := by
  refine ⟨fun xs h1 h2 => ?_, fun xs hfl hex => ?_, fun xs h v hv => ?_⟩
  · have h0 : (presentCells xs).isEmpty = false := by
      simpa [List.isEmpty_iff] using h1
    have hall : (presentCells xs).all parsesInteger = true :=
      List.all_eq_true.mpr h2
    simp [inferType, h0, hall]
  · obtain ⟨v, hv, hnint⟩ := hex
    have h0 : (presentCells xs).isEmpty = false := by
      simpa [List.isEmpty_iff] using List.ne_nil_of_mem hv
    have hint : (presentCells xs).all parsesInteger = false := by
      rcases Bool.eq_false_or_eq_true ((presentCells xs).all parsesInteger)
        with hb | hb
      · have := List.all_eq_true.mp hb v hv
        rw [hnint] at this
        exact Bool.noConfusion this
      · exact hb
    have hflt : (presentCells xs).all parsesFloat = true :=
      List.all_eq_true.mpr hfl
    simp [inferType, h0, hint, hflt]
  · simp only [inferType] at h
    split_ifs at h with h0 h1 h2 h3 h4
    exact List.all_eq_true.mp h1 v hv

theorem C9_type_inference_strictness_witness :
    (presentCells ["12", "-3", "NA"] ≠ [] ∧
      inferType ["12", "-3", "NA"] = ColType.integer) ∧
    inferType ["1", "2.5", "3"] = ColType.float :=
  ⟨⟨by decide, C9_type_inference_strictness.1 ["12", "-3", "NA"]
      (by decide) (by decide)⟩,
    C9_type_inference_strictness.2.1 ["1", "2.5", "3"] (by decide)
      ⟨"2.5", by decide, by decide⟩⟩

/- Section: Claim C10, the falsy presence check of the report validator -/

/-- Claim C10: a well-formed report in which a boxplot field of a
numeric column equals zero is classified by the report validator as
missing boxplot data, because presence is tested with a JavaScript falsy
check instead of a presence check: the profiler boxplot of the sorted
column -2, -1, 0, 1, 2 has median zero and every field present, and the
validator nevertheless flags it, while an actual presence check on the
same object reports nothing absent. -/
theorem C10_zero_boxplot_field_flagged :
    (boxplotOf [(-2 : ℚ), -1, 0, 1, 2]).median = 0 ∧
    boxplotFieldAbsent ((boxplotOf [(-2 : ℚ), -1, 0, 1, 2]).asJson) = false ∧
    boxplotMissingDataWarn ((boxplotOf [(-2 : ℚ), -1, 0, 1, 2]).asJson) = true := by
  have hq1 : quantileLinear [(-2 : ℚ), -1, 0, 1, 2] (1/4) = -1 := by
    norm_num [quantileLinear, interpAt, nthClamped]
  have hq2 : quantileLinear [(-2 : ℚ), -1, 0, 1, 2] (1/2) = 0 := by
    norm_num [quantileLinear, interpAt, nthClamped]
    simp
  have hq3 : quantileLinear [(-2 : ℚ), -1, 0, 1, 2] (3/4) = 1 := by
    norm_num [quantileLinear, interpAt, nthClamped]
    simp
  have hmin : colMin [(-2 : ℚ), -1, 0, 1, 2] = -2 := by
    norm_num [colMin, nthClamped]
  have hmax : colMax [(-2 : ℚ), -1, 0, 1, 2] = 2 := by
    norm_num [colMax, nthClamped]
  have hbox : boxplotOf [(-2 : ℚ), -1, 0, 1, 2] = ⟨-2, -1, 0, 1, 2⟩ := by
    simp only [boxplotOf, hq1, hq2, hq3, hmin, hmax]
    norm_num
  rw [hbox]
  refine ⟨rfl, rfl, ?_⟩
  norm_num [BoxplotData.asJson, boxplotMissingDataWarn, jsFalsyNum]
